import Mathlib

/-!
Shallow embedding of the candidate-location recommendation engine of the
healthcare-facility-planning backend, and proofs checking the natural-language
specification against it.

Sources embedded:
- `src/backend/services/llm.js` (`getRecommendation`, and the ML recommendation
  service: `generateCandidateLocations`, `predictCandidateLocations`,
  `selectTopLocations`, `formatMLRecommendations`, `getMLRecommendation`);
- `src/backend/routes/recommend.js` (`router.post("/")`).

Modelling conventions:
- JavaScript numbers are modelled as exact rationals (`ℚ`); all the arithmetic
  involved (grid steps, thresholds, coordinate comparisons) is plain field
  arithmetic, which float64 performs up to rounding.
- Network calls (`fetch` to the Ollama backend, to the ML service, the
  Supabase insert) are modelled as explicit outcome parameters: an `Option`
  or `Except` value standing for the settled result of the awaited call.
- A JavaScript `throw` caught by a caller is an `Except.error`.
-/

namespace HFP

/-- A geographic bounding box, as carried by `analysis.bounds`. -/
structure Bounds where
  minLat : ℚ
  maxLat : ℚ
  minLon : ℚ
  maxLon : ℚ
deriving DecidableEq, Repr

/-- The accessibility-analysis input consumed by both recommendation pathways
(`analysis` in `llm.js`).  Only the numeric fields that feed arithmetic are
kept; `district` is the display name used in generated strings. -/
structure Analysis where
  district : String
  avgTravel : ℚ
  target : ℚ
  currentFacilities : ℚ
  population : ℚ
  bounds : Bounds
deriving DecidableEq, Repr

/-- A candidate coordinate produced by `generateCandidateLocations`. -/
structure Candidate where
  latitude : ℚ
  longitude : ℚ
deriving DecidableEq, Repr

/-- Embedding of `Math.ceil(Math.sqrt(n))` for a natural number `n`. -/
def gridSizeOf (n : ℕ) : ℕ :=
  if Nat.sqrt n * Nat.sqrt n = n then Nat.sqrt n else Nat.sqrt n + 1

/-- Embedding of `generateCandidateLocations(bounds, numCandidates)` from
`llm.js`.  The JS function performs no validation of `bounds` or
`numCandidates`: it lays out a `gridSize × gridSize` grid with steps
`(max - min) / (gridSize + 1)` on each axis, looping `i`, `j` from `1` to
`gridSize` in row-major order, and returns the list unconditionally. -/
def generateCandidateLocations (b : Bounds) (numCandidates : ℕ) : List Candidate :=
  let gridSize := gridSizeOf numCandidates
  let latStep := (b.maxLat - b.minLat) / (gridSize + 1)
  let lonStep := (b.maxLon - b.minLon) / (gridSize + 1)
  (List.range gridSize).flatMap (fun i =>
    (List.range gridSize).map (fun j =>
      { latitude := b.minLat + (i + 1 : ℕ) * latStep
        longitude := b.minLon + (j + 1 : ℕ) * lonStep }))

/-! ## The LLM (generator) pathway: `getRecommendation` in `llm.js` -/

/-- JavaScript rounding `Math.round(x)`, which is `⌊x + 1/2⌋`. -/
def jsRound (q : ℚ) : ℤ := ⌊q + 1 / 2⌋

/-- One recommended site, as shaped by the hard-coded fallback objects in
`getRecommendation`.  `estimatedImpactMinutes` holds the number interpolated
into the `"Reduces avg travel time by ~X minutes"` string. -/
structure Site where
  name : String
  lat : ℚ
  lon : ℚ
  siteType : String
  justification : String
  estimatedImpactMinutes : ℤ
deriving DecidableEq, Repr

/-- The three hard-coded sites of the branch taken when the regex finds no
JSON object in the response (`llm.js` lines 60–89). -/
def dummySitesNoJson (a : Analysis) : List Site :=
  [{ name := "Recommended Health Center (North)"
     lat := a.bounds.minLat + (a.bounds.maxLat - a.bounds.minLat) * (3 / 10)
     lon := a.bounds.minLon + (a.bounds.maxLon - a.bounds.minLon) * (3 / 10)
     siteType := "health_center"
     justification := "Addresses northern underserved area based on accessibility analysis"
     estimatedImpactMinutes := jsRound ((a.avgTravel - a.target) / 3) },
   { name := "Recommended Clinic (East)"
     lat := a.bounds.minLat + (a.bounds.maxLat - a.bounds.minLat) * (5 / 10)
     lon := a.bounds.minLon + (a.bounds.maxLon - a.bounds.minLon) * (7 / 10)
     siteType := "clinic"
     justification := "Covers eastern zone with high population density"
     estimatedImpactMinutes := jsRound ((a.avgTravel - a.target) / 3) },
   { name := "Recommended Clinic (South)"
     lat := a.bounds.minLat + (a.bounds.maxLat - a.bounds.minLat) * (7 / 10)
     lon := a.bounds.minLon + (a.bounds.maxLon - a.bounds.minLon) * (5 / 10)
     siteType := "clinic"
     justification := "Addresses southern region with limited facility access"
     estimatedImpactMinutes := jsRound ((a.avgTravel - a.target) / 3) }]

/-- The three hard-coded sites of the `catch` branch (`llm.js` lines 96–122);
same coordinates and types as `dummySitesNoJson`, shorter justification on the
first entry. -/
def dummySitesCatch (a : Analysis) : List Site :=
  [{ name := "Recommended Health Center (North)"
     lat := a.bounds.minLat + (a.bounds.maxLat - a.bounds.minLat) * (3 / 10)
     lon := a.bounds.minLon + (a.bounds.maxLon - a.bounds.minLon) * (3 / 10)
     siteType := "health_center"
     justification := "Addresses northern underserved area"
     estimatedImpactMinutes := jsRound ((a.avgTravel - a.target) / 3) },
   { name := "Recommended Clinic (East)"
     lat := a.bounds.minLat + (a.bounds.maxLat - a.bounds.minLat) * (5 / 10)
     lon := a.bounds.minLon + (a.bounds.maxLon - a.bounds.minLon) * (7 / 10)
     siteType := "clinic"
     justification := "Covers eastern zone with high population density"
     estimatedImpactMinutes := jsRound ((a.avgTravel - a.target) / 3) },
   { name := "Recommended Clinic (South)"
     lat := a.bounds.minLat + (a.bounds.maxLat - a.bounds.minLat) * (7 / 10)
     lon := a.bounds.minLon + (a.bounds.maxLon - a.bounds.minLon) * (5 / 10)
     siteType := "clinic"
     justification := "Addresses southern region with limited facility access"
     estimatedImpactMinutes := jsRound ((a.avgTravel - a.target) / 3) }]

/-- The candidate span of `jsonStr.match(/\x7b[\s\S]*\x7d/)`: drop the
prefix before the first `{`, then drop the suffix after the last `}` of what
remains.  Empty exactly when the regex has no match. -/
def braceSpanOf (s : List Char) : List Char :=
  ((s.dropWhile (fun c => c ≠ '{')).reverse.dropWhile (fun c => c ≠ '}')).reverse

/-- Embedding of `jsonStr.match(/\x7b[\s\S]*\x7d/)`: the greedy regex matches
from the first `{` of the text through the last `}`, provided that last `}`
comes after the first `{`; otherwise there is no match. -/
def extractBraceSpan (s : List Char) : Option (List Char) :=
  if braceSpanOf s = [] then none else some (braceSpanOf s)

/-! ## A model of `JSON.parse`

JSON values per ECMA-404, with numbers as exact rationals.  An object is a
list of key/value pairs in source order (JavaScript keeps the last occurrence
of a duplicate key; `lookupField` below reflects that). -/

inductive Json where
  | null
  | bool (b : Bool)
  | num (q : ℚ)
  | str (s : List Char)
  | arr (items : List Json)
  | obj (fields : List (List Char × Json))

/-- JSON insignificant whitespace. -/
def isJsonWs (c : Char) : Bool := c = ' ' || c = '\t' || c = '\n' || c = '\r'

def skipWs (l : List Char) : List Char := l.dropWhile isJsonWs

def digitVal (c : Char) : ℕ := c.toNat - '0'.toNat

def digitsToNat (l : List Char) : ℕ := l.foldl (fun acc c => 10 * acc + digitVal c) 0

def isHexDigitChar (c : Char) : Bool :=
  c.isDigit || ('a' ≤ c && c ≤ 'f') || ('A' ≤ c && c ≤ 'F')

def hexVal (c : Char) : ℕ :=
  if c.isDigit then c.toNat - '0'.toNat
  else if 'a' ≤ c && c ≤ 'f' then c.toNat - 'a'.toNat + 10
  else c.toNat - 'A'.toNat + 10

/-- JSON string escape characters (`\"`, `\\`, `\/`, `\b`, `\f`, `\n`, `\r`,
`\t`); `\u` is handled separately. -/
def escapeChar : Char → Option Char
  | '"' => some '"'
  | '\\' => some '\\'
  | '/' => some '/'
  | 'b' => some (Char.ofNat 8)
  | 'f' => some (Char.ofNat 12)
  | 'n' => some '\n'
  | 'r' => some '\r'
  | 't' => some '\t'
  | _ => none

/-- Parse the body of a JSON string after the opening quote, returning the
decoded characters and the remaining input after the closing quote.
Control characters below `0x20` must be escaped; a `\u` escape takes four hex
digits (a lone surrogate becomes the default character, where JavaScript
keeps it — irrelevant to any claim here). -/
def parseStringBody : List Char → Option (List Char × List Char)
  | [] => none
  | '"' :: rest => some ([], rest)
  | '\\' :: 'u' :: h1 :: h2 :: h3 :: h4 :: rest =>
    if isHexDigitChar h1 && isHexDigitChar h2 && isHexDigitChar h3 && isHexDigitChar h4 then
      (parseStringBody rest).map (fun p =>
        (Char.ofNat (((hexVal h1 * 16 + hexVal h2) * 16 + hexVal h3) * 16 + hexVal h4) :: p.1,
          p.2))
    else none
  | '\\' :: e :: rest =>
    match escapeChar e with
    | some c => (parseStringBody rest).map (fun p => (c :: p.1, p.2))
    | none => none
  | c :: rest =>
    if c.toNat < 32 then none
    else (parseStringBody rest).map (fun p => (c :: p.1, p.2))

def takeDigits (l : List Char) : List Char × List Char :=
  (l.takeWhile Char.isDigit, l.dropWhile Char.isDigit)

/-- Exponent suffix of a JSON number: optional sign, then digits. -/
def parseExponentTail (sgn base : ℚ) (l : List Char) : Option (ℚ × List Char) :=
  let (esgn, l1) : ℤ × List Char :=
    match l with
    | '+' :: r => (1, r)
    | '-' :: r => (-1, r)
    | _ => (1, l)
  let (ds, r2) := takeDigits l1
  if ds = [] then none
  else some (sgn * base * (10 : ℚ) ^ (esgn * (digitsToNat ds : ℤ)), r2)

/-- Fraction and exponent of a JSON number, given its parsed integer part. -/
def parseNumberTail (sgn : ℚ) (ip : ℕ) (l : List Char) : Option (ℚ × List Char) :=
  let fracRes : Option (ℚ × List Char) :=
    match l with
    | '.' :: r =>
      let (ds, r2) := takeDigits r
      if ds = [] then none
      else some ((ip : ℚ) + (digitsToNat ds : ℚ) / (10 : ℚ) ^ ds.length, r2)
    | _ => some ((ip : ℚ), l)
  match fracRes with
  | none => none
  | some (base, l2) =>
    match l2 with
    | 'e' :: r => parseExponentTail sgn base r
    | 'E' :: r => parseExponentTail sgn base r
    | _ => some (sgn * base, l2)

/-- A JSON number: `-?(0|[1-9][0-9]*)(\.[0-9]+)?([eE][+-]?[0-9]+)?`.  After a
leading `0` no further integer digits are consumed, so `01` leaves the `1` as
trailing input, which the surrounding grammar then rejects — matching
`JSON.parse`. -/
def parseNumber (l : List Char) : Option (ℚ × List Char) :=
  let p : ℚ × List Char := match l with | '-' :: r => (-1, r) | _ => (1, l)
  match p.2 with
  | '0' :: r => parseNumberTail p.1 0 r
  | c :: _ =>
    if c.isDigit then
      let (ds, r2) := takeDigits p.2
      parseNumberTail p.1 (digitsToNat ds) r2
    else none
  | [] => none

mutual

/-- Parse one JSON value (after optional leading whitespace), returning the
value and the remaining input.  Fueled to make the nesting recursion
structural; `jsonParseWhole` supplies ample fuel. -/
def parseValue : ℕ → List Char → Option (Json × List Char)
  | 0, _ => none
  | fuel + 1, l =>
    match skipWs l with
    | 'n' :: 'u' :: 'l' :: 'l' :: rest => some (.null, rest)
    | 't' :: 'r' :: 'u' :: 'e' :: rest => some (.bool true, rest)
    | 'f' :: 'a' :: 'l' :: 's' :: 'e' :: rest => some (.bool false, rest)
    | '"' :: rest => (parseStringBody rest).map (fun p => (.str p.1, p.2))
    | '[' :: rest =>
      match skipWs rest with
      | ']' :: rest2 => some (.arr [], rest2)
      | _ => (parseElems fuel rest).map (fun p => (.arr p.1, p.2))
    | '{' :: rest =>
      match skipWs rest with
      | '}' :: rest2 => some (.obj [], rest2)
      | _ => (parseMembers fuel rest).map (fun p => (.obj p.1, p.2))
    | l2 => (parseNumber l2).map (fun p => (.num p.1, p.2))

/-- Parse the comma-separated elements of a non-empty JSON array, consuming
the closing `]`. -/
def parseElems : ℕ → List Char → Option (List Json × List Char)
  | 0, _ => none
  | fuel + 1, l => do
    let (v, r) ← parseValue fuel l
    match skipWs r with
    | ',' :: r2 => do
      let (vs, r3) ← parseElems fuel r2
      pure (v :: vs, r3)
    | ']' :: r2 => pure ([v], r2)
    | _ => none

/-- Parse the members of a non-empty JSON object, consuming the closing `}`. -/
def parseMembers : ℕ → List Char → Option (List (List Char × Json) × List Char)
  | 0, _ => none
  | fuel + 1, l =>
    match skipWs l with
    | '"' :: rest => do
      let (key, r1) ← parseStringBody rest
      match skipWs r1 with
      | ':' :: r2 => do
        let (v, r3) ← parseValue fuel r2
        match skipWs r3 with
        | ',' :: r4 => do
          let (ms, r5) ← parseMembers fuel r4
          pure ((key, v) :: ms, r5)
        | '}' :: r4 => pure ([(key, v)], r4)
        | _ => none
      | _ => none
    | _ => none

end

/-- Model of `JSON.parse(text)`: parse one value and require only whitespace
to remain. -/
def jsonParseWhole (l : List Char) : Option Json :=
  match parseValue (l.length + 2) l with
  | some (j, rest) => if skipWs rest = [] then some j else none
  | none => none

/-- The spec's error taxonomy for the generator pathway (§4.4).  The embedded
`getRecommendation` below never actually produces either error — that fact is
what several theorems establish. -/
inductive GenError where
  | generatorUnavailable
  | unparsableResponse
deriving DecidableEq, Repr

/-- What `getRecommendation` returns: either the object parsed from the
backend response (returned as-is, line 92 of `llm.js`), or one of the two
hard-coded fallback payloads.  The accompanying `summary` strings are not
modelled; the sites carry all claim-relevant data. -/
inductive RecOutput where
  | parsed (j : Json)
  | fallbackNoJson (sites : List Site)
  | fallbackCatch (sites : List Site)

/-- Embedding of `getRecommendation(analysis)` from `llm.js`.

`backendResponse` is the settled outcome of the `fetch` to the Ollama
`/api/generate` endpoint: `none` when the call fails, times out, returns a
non-OK status, or yields no usable `response` string (all of which land in
the `catch` block); `some raw` when it yields the response text `raw`.

The body then mirrors the source: match `raw` against `/\x7b[\s\S]*\x7d/`;
if there is no match, return the first hard-coded payload; otherwise
`JSON.parse` the match and return the parsed object on success, with a parse
exception landing in the `catch` block, which returns the second hard-coded
payload.  No branch throws, so the result is always `Except.ok`. -/
def getRecommendation (backendResponse : Option (List Char)) (a : Analysis) :
    Except GenError RecOutput :=
  match backendResponse with
  | none => .ok (.fallbackCatch (dummySitesCatch a))
  | some raw =>
    match extractBraceSpan raw with
    | none => .ok (.fallbackNoJson (dummySitesNoJson a))
    | some span =>
      match jsonParseWhole span with
      | some j => .ok (.parsed j)
      | none => .ok (.fallbackCatch (dummySitesCatch a))

/-- Field lookup in a parsed JSON object; the last occurrence of a duplicate
key wins, as in JavaScript. -/
def lookupField (fields : List (List Char × Json)) (key : List Char) : Option Json :=
  (fields.reverse.find? (fun kv => kv.1 = key)).map (fun kv => kv.2)

/-- The (lat, lon) coordinate of one entry of a parsed `recommendations`
array, when both fields are present and numeric. -/
def coordOfItem (it : Json) : Option (ℚ × ℚ) :=
  match it with
  | .obj fs =>
    match lookupField fs ("lat".data), lookupField fs ("lon".data) with
    | some (.num la), some (.num lo) => some (la, lo)
    | _, _ => none
  | _ => none

/-- Observer for claims about coordinates: the list of proposed-site
coordinates carried by a `getRecommendation` result. -/
def siteCoords (r : RecOutput) : List (ℚ × ℚ) :=
  match r with
  | .parsed j =>
    match j with
    | .obj fs =>
      match lookupField fs ("recommendations".data) with
      | some (.arr items) => items.filterMap coordOfItem
      | _ => []
    | _ => []
  | .fallbackNoJson sites => sites.map (fun s => (s.lat, s.lon))
  | .fallbackCatch sites => sites.map (fun s => (s.lat, s.lon))

/-- A coordinate lies within (inclusively) a bounding box. -/
def inBounds (b : Bounds) (lat lon : ℚ) : Prop :=
  b.minLat ≤ lat ∧ lat ≤ b.maxLat ∧ b.minLon ≤ lon ∧ lon ≤ b.maxLon

instance (b : Bounds) (lat lon : ℚ) : Decidable (inBounds b lat lon) := by
  unfold inBounds; infer_instance

/-! ## The ML (classifier) pathway: `mlRecommendation.js` -/

/-- The body of a successful ML-service response for one candidate
(`data.prediction`, `data.probability`, `data.confidence`). -/
structure PredData where
  prediction : ℤ
  probability : ℚ
  confidence : String
deriving DecidableEq, Repr

/-- A scored prediction as pushed by `predictCandidateLocations` (lines
224–230): the candidate's coordinate, the service response fields, and the
derived `suitable` flag `data.prediction === 1 && data.probability > 0.6`. -/
structure Prediction where
  latitude : ℚ
  longitude : ℚ
  prediction : ℤ
  probability : ℚ
  confidence : String
  suitable : Bool
deriving DecidableEq, Repr

def mkPrediction (c : Candidate) (d : PredData) : Prediction :=
  { latitude := c.latitude
    longitude := c.longitude
    prediction := d.prediction
    probability := d.probability
    confidence := d.confidence
    suitable := d.prediction == 1 && decide (d.probability > 3 / 5) }

/-- Embedding of `predictCandidateLocations(candidates)`.  `svc` is the
settled per-candidate outcome of the `fetch` to
`/api/predict-from-location`: `none` when the response is non-OK or the call
throws (both of which the source logs and skips via `continue`/`catch`),
`some d` on success.  The loop accumulates the successes in order. -/
def predictCandidateLocations (svc : Candidate → Option PredData)
    (candidates : List Candidate) : List Prediction :=
  candidates.filterMap (fun c => (svc c).map (mkPrediction c))

/-- Sort relation used to model `sort((a, b) => b.probability - a.probability)`:
descending probability. -/
def probGE (p q : Prediction) : Prop := q.probability ≤ p.probability

instance : DecidableRel probGE := fun p q => by unfold probGE; infer_instance

instance : IsTotal Prediction probGE :=
  ⟨fun p q => le_total q.probability p.probability⟩

instance : IsTrans Prediction probGE :=
  ⟨fun _ _ _ h1 h2 => le_trans h2 h1⟩

/-- The message of the error thrown by `selectTopLocations` when no
candidate is suitable. -/
def noSuitableMsg : String :=
  "No suitable locations found. The ML model did not identify any built-up areas suitable for healthcare facilities in this district."

/-- Embedding of `selectTopLocations(predictions, numLocations = 3)`:
filter to the suitable predictions, throw if none remain, otherwise sort by
probability descending and return the first `numLocations`. -/
def selectTopLocations (predictions : List Prediction) (numLocations : ℕ) :
    Except String (List Prediction) :=
  let suitableLocations := predictions.filter (fun p => p.suitable)
  if suitableLocations.isEmpty then
    .error noSuitableMsg
  else
    .ok ((List.insertionSort probGE suitableLocations).take numLocations)

/-- One formatted entry of `formatMLRecommendations`; as with `Site`,
`estimatedImpactMinutes` holds the number interpolated into the impact
string, and `mlProbability` the probability that `.toFixed(3)` renders. -/
structure MLSite where
  name : String
  lat : ℚ
  lon : ℚ
  siteType : String
  mlConfidence : String
  mlProbability : ℚ
  estimatedImpactMinutes : ℤ
deriving DecidableEq, Repr

/-- The shaped output of the ML pathway. -/
structure MLRec where
  recommendations : List MLSite
  mlEnhanced : Bool
  modelVersion : String
deriving DecidableEq, Repr

def zoneNames : List String := ["North", "Central", "South", "East", "West"]

def typeNames : List String := ["health_center", "clinic", "clinic"]

/-- Embedding of `formatMLRecommendations(topLocations, analysis)`. -/
def formatMLRecommendations (topLocations : List Prediction) (a : Analysis) : MLRec :=
  { recommendations := topLocations.mapIdx (fun i loc =>
      let zone := zoneNames.getD (i % zoneNames.length) ""
      let t := typeNames.getD i "clinic"
      { name := a.district ++
          (if t = "health_center" then " Health Center (" else " Clinic (") ++ zone ++ ")"
        lat := loc.latitude
        lon := loc.longitude
        siteType := t
        mlConfidence := loc.confidence
        mlProbability := loc.probability
        estimatedImpactMinutes :=
          jsRound ((a.avgTravel - a.target) / (topLocations.length : ℚ)) })
    mlEnhanced := true
    modelVersion := "1.0.0" }

/-- The message of the error thrown by `getMLRecommendation` when not one
candidate produced a prediction. -/
def noPredictionsMsg : String :=
  "Could not get ML predictions for any candidate locations. Check that the ML service is running and has access to satellite data."

/-- Embedding of `getMLRecommendation(analysis)`.  `availability` is the
settled outcome of `checkMLAvailability()` (which throws when ML is disabled,
the health check fails, or no model is loaded); `svc` is the per-candidate
prediction outcome as in `predictCandidateLocations`.  Any thrown error is
re-thrown to the caller (`Except.error`), never replaced by dummy data. -/
def getMLRecommendation (availability : Except String Unit)
    (svc : Candidate → Option PredData) (a : Analysis) : Except String MLRec :=
  match availability with
  | .error e => .error e
  | .ok _ =>
    let candidates := generateCandidateLocations a.bounds 20
    let predictions := predictCandidateLocations svc candidates
    if predictions.isEmpty then
      .error noPredictionsMsg
    else
      match selectTopLocations predictions 3 with
      | .error e => .error e
      | .ok top => .ok (formatMLRecommendations top a)

/-! ## The orchestrating route: `router.post("/")` in `routes/recommend.js` -/

/-- Hex digit for the case-insensitive UUID regex (`[0-9a-f]` with the `i`
flag). -/
def isUuidHexChar (c : Char) : Bool :=
  c.isDigit || ('a' ≤ c && c ≤ 'f') || ('A' ≤ c && c ≤ 'F')

/-- Embedding of
`/^[0-9a-f]\x7b8\x7d-[0-9a-f]\x7b4\x7d-[0-9a-f]\x7b4\x7d-[0-9a-f]\x7b4\x7d-[0-9a-f]\x7b12\x7d$/i.test(s)`:
36 characters, dashes at positions 8, 13, 18 and 23, hex digits elsewhere. -/
def isValidUuid (s : String) : Bool :=
  let l := s.data
  l.length = 36 &&
    (List.range 36).all (fun i =>
      if i = 8 || i = 13 || i = 18 || i = 23 then l.getD i ' ' = '-'
      else isUuidHexChar (l.getD i ' '))

/-- The request body's `analysis` object as far as the route itself inspects
it (`analysis.districtId`; the rest is passed through to the services, which
are modelled as outcome parameters). `districtId := none` models an absent
field. -/
structure RequestAnalysis where
  districtId : Option String
deriving DecidableEq, Repr

/-- Embedding of the route's check
`!analysis.districtId || !uuidRegex.test(analysis.districtId)` (falsiness of
an absent or empty string, then the regex test). -/
def districtIdOk : Option String → Bool
  | none => false
  | some s => !(s = "") && isValidUuid s

/-- The HTTP responses the handler can produce. -/
inductive RouteResponse where
  | badRequest (msg : String)
  | serviceUnavailable (mlError llmError : String)
  | success (method : String) (payload : MLRec ⊕ RecOutput)
  | serverError (msg : String)

/-- The observable behaviour of one handler run: the response sent, and
whether each service call and the recommendations-store insert happened. -/
structure HandlerResult where
  response : RouteResponse
  invokedML : Bool
  invokedLLM : Bool
  storedRecommendation : Bool

/-- Embedding of `router.post("/")` in `routes/recommend.js`.

`mlEnabled` and `useML` are `ML_ENABLED` and `USE_ML_FOR_RECOMMENDATIONS`;
`body` is `req.body.analysis` (`none` when absent); `mlOutcome` and
`llmOutcome` are the settled outcomes of `getMLRecommendation(analysis)` and
`getRecommendation(analysis)`, an `Except.error` standing for a thrown
rejection.  The Supabase insert's own failure is logged, not propagated, so
it is not a parameter.  Control flow follows the source: validate, try ML
when enabled, fall back to the LLM on ML failure, answer 503 with both error
messages when both fail, store and answer 200 on any success; in the
non-ML branch an LLM rejection reaches the outer catch and answers 500. -/
def handleRecommend (mlEnabled useML : Bool) (body : Option RequestAnalysis)
    (mlOutcome : Except String MLRec) (llmOutcome : Except String RecOutput) :
    HandlerResult :=
  match body with
  | none =>
    { response := .badRequest "Analysis data required"
      invokedML := false, invokedLLM := false, storedRecommendation := false }
  | some analysis =>
    if !districtIdOk analysis.districtId then
      { response := .badRequest "Invalid district ID"
        invokedML := false, invokedLLM := false, storedRecommendation := false }
    else if mlEnabled && useML then
      match mlOutcome with
      | .ok r =>
        { response := .success "ml" (.inl r)
          invokedML := true, invokedLLM := false, storedRecommendation := true }
      | .error mlError =>
        match llmOutcome with
        | .ok r =>
          { response := .success "llm-fallback" (.inr r)
            invokedML := true, invokedLLM := true, storedRecommendation := true }
        | .error llmError =>
          { response := .serviceUnavailable mlError llmError
            invokedML := true, invokedLLM := true, storedRecommendation := false }
    else
      match llmOutcome with
      | .ok r =>
        { response := .success "llm" (.inr r)
          invokedML := false, invokedLLM := true, storedRecommendation := true }
      | .error e =>
        { response := .serverError e
          invokedML := false, invokedLLM := true, storedRecommendation := false }

/-! ## Concrete example inputs used by witnesses and counterexamples -/

/-- The bounding box of the spec's end-to-end scenarios (§8). -/
def exampleBounds : Bounds :=
  { minLat := -2, maxLat := -9/5, minLon := 30, maxLon := 151/5 }

def exampleAnalysis : Analysis :=
  { district := "Gasabo", avgTravel := 45, target := 30, currentFacilities := 5,
    population := 100000, bounds := exampleBounds }

/-- Bounds violating `min < max` on both axes (`minLat = maxLat`,
`minLon > maxLon`). -/
def degenerateBounds : Bounds :=
  { minLat := 5, maxLat := 5, minLon := 7, maxLon := 3 }

/-- A backend response containing no JSON object. -/
def rawNoJson : List Char := "The model returned no structured data.".data

/-- Leading prose with no opening brace. -/
def examplePre : List Char := "Here are my recommendations: ".data

/-- The inside of a small JSON object `\x7b"a": 1\x7d`. -/
def exampleObjMid : List Char := "\"a\": 1".data

def exampleObj : List Char := '{' :: exampleObjMid ++ ['}']

/-- Trailing prose that contains a closing brace, extending the greedy regex
match past the object. -/
def examplePostBrace : List Char := " Hope this helps! \x7d".data

/-- Trailing prose with no closing brace. -/
def examplePostClean : List Char := " Hope this helps!".data

def exampleParsedJson : Json := Json.obj [("a".data, Json.num 1)]

/-- A backend response whose single recommendation has latitude 99, far
outside `exampleBounds`. -/
def rawOutOfBounds : List Char :=
  "\x7b\"recommendations\":[\x7b\"lat\":99,\"lon\":30.1\x7d]\x7d".data

/-- The object `JSON.parse` yields for `rawOutOfBounds`. -/
def outOfBoundsJson : Json :=
  Json.obj [("recommendations".data,
    Json.arr [Json.obj [("lat".data, Json.num 99), ("lon".data, Json.num (301/10))]])]

def exampleCandidate : Candidate := { latitude := -19/10, longitude := 301/10 }

def secondCandidate : Candidate := { latitude := 0, longitude := 0 }

def examplePredData : PredData :=
  { prediction := 1, probability := 7/10, confidence := "high" }

def exampleLowPredData : PredData :=
  { prediction := 1, probability := 1/2, confidence := "medium" }

/-- ML service predicting every candidate successfully with high probability. -/
def svcAlwaysGood : Candidate → Option PredData := fun _ => some examplePredData

/-- ML service predicting every candidate with a sub-threshold probability. -/
def svcAlwaysLow : Candidate → Option PredData := fun _ => some exampleLowPredData

/-- ML service failing (non-OK response or thrown error) for every candidate. -/
def svcAlwaysFail : Candidate → Option PredData := fun _ => none

/-- ML service failing exactly on `secondCandidate` (latitude 0). -/
def svcMixed : Candidate → Option PredData :=
  fun c => if c.latitude = 0 then none else some examplePredData

/-- The singleton suitable prediction list produced by `svcAlwaysGood` on
`[exampleCandidate]`. -/
def exampleTopResult : List Prediction :=
  [mkPrediction exampleCandidate examplePredData]

def exampleUuid : String := "123e4567-e89b-12d3-a456-426614174000"

def exampleRequest : RequestAnalysis := { districtId := some exampleUuid }

def malformedRequest : RequestAnalysis := { districtId := some "not-a-uuid" }

/-! ## Helper lemmas -/

theorem length_generateCandidateLocations (b : Bounds) (n : ℕ) :
    (generateCandidateLocations b n).length = gridSizeOf n * gridSizeOf n := by
  simp [generateCandidateLocations, List.length_flatMap, Function.comp_def,
    List.map_const, List.sum_replicate, smul_eq_mul]

theorem mem_generateCandidateLocations {b : Bounds} {n : ℕ} {c : Candidate}
    (hc : c ∈ generateCandidateLocations b n) :
    ∃ i j : ℕ, i < gridSizeOf n ∧ j < gridSizeOf n ∧
      c.latitude = b.minLat + (i + 1 : ℕ) * ((b.maxLat - b.minLat) / (gridSizeOf n + 1)) ∧
      c.longitude = b.minLon + (j + 1 : ℕ) * ((b.maxLon - b.minLon) / (gridSizeOf n + 1)) := by
  simp only [generateCandidateLocations, List.mem_flatMap, List.mem_map,
    List.mem_range] at hc
  obtain ⟨i, hi, j, hj, rfl⟩ := hc
  exact ⟨i, j, hi, hj, rfl, rfl⟩

theorem gridSizeOf_pos {n : ℕ} (hn : 1 ≤ n) : 1 ≤ gridSizeOf n := by
  unfold gridSizeOf
  split
  · rename_i h
    rcases Nat.eq_zero_or_pos (Nat.sqrt n) with h0 | h1
    · rw [h0] at h
      omega
    · exact h1
  · omega

/-- The fidelity of `gridSizeOf` to the source's
`Math.ceil(Math.sqrt(numCandidates))`: it equals the ceiling of the real
square root. -/
theorem gridSizeOf_eq_ceil_sqrt (n : ℕ) : gridSizeOf n = ⌈Real.sqrt n⌉₊ := by
  unfold gridSizeOf
  split
  · rename_i h
    have hn : ((Nat.sqrt n : ℝ)) * ((Nat.sqrt n : ℝ)) = (n : ℝ) := by
      exact_mod_cast congrArg (Nat.cast : ℕ → ℝ) h
    rw [← hn, Real.sqrt_mul_self (by positivity)]
    simp
  · rename_i h
    have hlow : Nat.sqrt n * Nat.sqrt n ≤ n := Nat.sqrt_le n
    have hlt : Nat.sqrt n * Nat.sqrt n < n := lt_of_le_of_ne hlow h
    have hub : n < (Nat.sqrt n + 1) * (Nat.sqrt n + 1) := Nat.lt_succ_sqrt n
    have hs1 : (Nat.sqrt n : ℝ) < Real.sqrt n := by
      have hcast : ((Nat.sqrt n * Nat.sqrt n : ℕ) : ℝ) < (n : ℝ) := by
        exact_mod_cast hlt
      have := Real.sqrt_lt_sqrt (by positivity) hcast
      rwa [show ((Nat.sqrt n * Nat.sqrt n : ℕ) : ℝ) =
          ((Nat.sqrt n : ℝ)) * ((Nat.sqrt n : ℝ)) by push_cast; ring,
        Real.sqrt_mul_self (by positivity)] at this
    have hs2 : Real.sqrt n ≤ (Nat.sqrt n : ℝ) + 1 := by
      have hcast : (n : ℝ) ≤ ((Nat.sqrt n : ℝ) + 1) * ((Nat.sqrt n : ℝ) + 1) := by
        exact_mod_cast hub.le
      calc Real.sqrt n
          ≤ Real.sqrt (((Nat.sqrt n : ℝ) + 1) * ((Nat.sqrt n : ℝ) + 1)) :=
            Real.sqrt_le_sqrt hcast
        _ = (Nat.sqrt n : ℝ) + 1 := Real.sqrt_mul_self (by positivity)
    symm
    rw [Nat.ceil_eq_iff (by omega)]
    constructor
    · simpa using hs1
    · simpa using hs2

theorem grid_coord_strict {u v : ℚ} {k g : ℕ} (hlt : u < v)
    (hk1 : 1 ≤ k) (hkg : k ≤ g) :
    u < u + (k : ℚ) * ((v - u) / (g + 1)) ∧
      u + (k : ℚ) * ((v - u) / (g + 1)) < v := by
  have hg1 : (0 : ℚ) < (g : ℚ) + 1 := by positivity
  have hstep : (0 : ℚ) < (v - u) / (g + 1) := by
    apply div_pos (by linarith) hg1
  have hk1Q : (1 : ℚ) ≤ (k : ℚ) := by exact_mod_cast hk1
  have hkgQ : (k : ℚ) ≤ (g : ℚ) := by exact_mod_cast hkg
  constructor
  · nlinarith
  · have hkg1 : (k : ℚ) < (g : ℚ) + 1 := by linarith
    have hmul : (k : ℚ) * ((v - u) / (g + 1)) <
        ((g : ℚ) + 1) * ((v - u) / (g + 1)) :=
      mul_lt_mul_of_pos_right hkg1 hstep
    have hcancel : ((g : ℚ) + 1) * ((v - u) / (g + 1)) = v - u := by
      field_simp
    linarith [hmul, hcancel.symm.le]

theorem generateCandidateLocations_strictly_inside {b : Bounds} {n : ℕ}
    (hlat : b.minLat < b.maxLat) (hlon : b.minLon < b.maxLon)
    {c : Candidate} (hc : c ∈ generateCandidateLocations b n) :
    b.minLat < c.latitude ∧ c.latitude < b.maxLat ∧
      b.minLon < c.longitude ∧ c.longitude < b.maxLon := by
  obtain ⟨i, j, hi, hj, hlatEq, hlonEq⟩ := mem_generateCandidateLocations hc
  have h1 := grid_coord_strict (u := b.minLat) (v := b.maxLat)
    (k := i + 1) (g := gridSizeOf n) hlat (by omega) (by omega)
  have h2 := grid_coord_strict (u := b.minLon) (v := b.maxLon)
    (k := j + 1) (g := gridSizeOf n) hlon (by omega) (by omega)
  rw [hlatEq, hlonEq]
  exact ⟨h1.1, h1.2, h2.1, h2.2⟩

theorem dropWhile_append_of_forall {p : Char → Bool} (pre rest : List Char)
    (h : ∀ c ∈ pre, p c = true) :
    (pre ++ rest).dropWhile p = rest.dropWhile p := by
  induction pre with
  | nil => rfl
  | cons c t ih =>
    have hc : p c = true := h c (by simp)
    simp only [List.cons_append, List.dropWhile_cons, hc, if_true]
    exact ih (fun x hx => h x (by simp [hx]))

/-- The greedy regex match on a text decomposed as prose, an object span from
`\x7b` to `\x7d`, and prose: when the leading prose has no opening brace and
the trailing prose no closing brace, the match is exactly the object span. -/
theorem braceSpanOf_decomp (pre mid post : List Char)
    (hpre : ∀ c ∈ pre, c ≠ '{') (hpost : ∀ c ∈ post, c ≠ '}') :
    braceSpanOf (pre ++ ('{' :: mid ++ ['}']) ++ post) = '{' :: mid ++ ['}'] := by
  unfold braceSpanOf
  have h1 : (pre ++ ('{' :: mid ++ ['}']) ++ post).dropWhile (fun c => c ≠ '{') =
      '{' :: (mid ++ ['}'] ++ post) := by
    rw [List.append_assoc]
    rw [dropWhile_append_of_forall pre _ (fun c hc => by
      simpa using hpre c hc)]
    simp [List.dropWhile]
  rw [h1]
  have h2 : ('{' :: (mid ++ ['}'] ++ post)).reverse =
      post.reverse ++ ('}' :: (mid.reverse ++ ['{'])) := by
    simp [List.reverse_append, List.reverse_cons]
  rw [h2]
  have h3 : (post.reverse ++ ('}' :: (mid.reverse ++ ['{']))).dropWhile
      (fun c => c ≠ '}') = '}' :: (mid.reverse ++ ['{']) := by
    rw [dropWhile_append_of_forall post.reverse _ (fun c hc => by
      simp only [List.mem_reverse] at hc
      simpa using hpost c hc)]
    simp [List.dropWhile]
  rw [h3]
  simp [List.reverse_cons, List.reverse_append]

/-- The greedy regex match on a text decomposed as prose, an object span from
`\x7b` to `\x7d`, and prose: when the leading prose has no opening brace and
the trailing prose no closing brace, the match is exactly the object span. -/
theorem extractBraceSpan_decomp (pre mid post : List Char)
    (hpre : ∀ c ∈ pre, c ≠ '{') (hpost : ∀ c ∈ post, c ≠ '}') :
    extractBraceSpan (pre ++ ('{' :: mid ++ ['}']) ++ post) =
      some ('{' :: mid ++ ['}']) := by
  unfold extractBraceSpan
  rw [braceSpanOf_decomp pre mid post hpre hpost]
  simp

theorem mem_predictCandidateLocations {svc : Candidate → Option PredData}
    {cands : List Candidate} {p : Prediction} :
    p ∈ predictCandidateLocations svc cands ↔
      ∃ c ∈ cands, ∃ d, svc c = some d ∧ mkPrediction c d = p := by
  simp [predictCandidateLocations, List.mem_filterMap, Option.map_eq_some']

theorem suitable_decode {c : Candidate} {d : PredData} :
    (mkPrediction c d).suitable = true ↔
      (mkPrediction c d).prediction = 1 ∧ 3 / 5 < (mkPrediction c d).probability := by
  simp [mkPrediction, Bool.and_eq_true, beq_iff_eq, decide_eq_true_iff, gt_iff_lt]

/-! ## Claim C1 -/

/-- C1 (counterexample): the claim says `getRecommendation` fails with
`GeneratorUnavailable` when the backend call fails and with
`UnparsableResponse` when no JSON object is found, and never returns a
success in those cases.  On the code, at a concrete analysis, a failed
backend call and a JSON-free response both yield a success carrying the
hard-coded fallback payload, and neither error is ever produced. -/
theorem C1_counterexample :
    getRecommendation none exampleAnalysis ≠
      Except.error GenError.generatorUnavailable ∧
    getRecommendation (some rawNoJson) exampleAnalysis ≠
      Except.error GenError.unparsableResponse ∧
    getRecommendation none exampleAnalysis =
      .ok (.fallbackCatch (dummySitesCatch exampleAnalysis)) ∧
    getRecommendation (some rawNoJson) exampleAnalysis =
      .ok (.fallbackNoJson (dummySitesNoJson exampleAnalysis)) := by
  refine ⟨fun h => ?_, fun h => ?_, rfl, by with_unfolding_all rfl⟩
  · exact Except.noConfusion h
  · rw [show getRecommendation (some rawNoJson) exampleAnalysis =
      .ok (.fallbackNoJson (dummySitesNoJson exampleAnalysis)) from by
        with_unfolding_all rfl] at h
    exact Except.noConfusion h

/-- C1 (amended): when the backend call fails, or when the regex locates no
JSON object in the response text, `getRecommendation` does not fail at all:
it returns a success carrying the corresponding hard-coded three-site
fallback payload. -/
theorem C1_fallback_never_fails (a : Analysis) (raw : List Char)
    (hraw : extractBraceSpan raw = none) :
    getRecommendation none a = .ok (.fallbackCatch (dummySitesCatch a)) ∧
    getRecommendation (some raw) a = .ok (.fallbackNoJson (dummySitesNoJson a)) := by
  constructor
  · rfl
  · simp [getRecommendation, hraw]

/-- C1 (witness): the amended statement instantiated at a concrete analysis
and a JSON-free backend response. -/
theorem C1_fallback_never_fails_witness :
    getRecommendation none exampleAnalysis =
      .ok (.fallbackCatch (dummySitesCatch exampleAnalysis)) ∧
    getRecommendation (some rawNoJson) exampleAnalysis =
      .ok (.fallbackNoJson (dummySitesNoJson exampleAnalysis)) :=
  C1_fallback_never_fails exampleAnalysis rawNoJson (by with_unfolding_all rfl)

/-! ## Claim C2 -/

/-- C2 (counterexample): the claim says any response containing one valid
JSON object surrounded by prose has that object extracted and returned.  At
a concrete response whose trailing prose contains a `\x7d`, the greedy regex
span runs past the object, `JSON.parse` fails on it, and the code returns
the hard-coded catch fallback instead of the parsed object. -/
theorem C2_counterexample :
    (jsonParseWhole exampleObj).isSome = true ∧
    getRecommendation (some (examplePre ++ exampleObj ++ examplePostBrace))
        exampleAnalysis =
      .ok (.fallbackCatch (dummySitesCatch exampleAnalysis)) := by
  constructor
  · with_unfolding_all rfl
  · with_unfolding_all rfl

/-- C2 (amended): extraction succeeds when the surrounding prose is
brace-free: if the response text is leading prose with no `\x7b`, then a
substring from `\x7b` to `\x7d` that `JSON.parse` accepts as an object `j`,
then trailing prose with no `\x7d`, `getRecommendation` returns exactly the
parsed object `j`. -/
theorem C2_extracts_json_of_bracefree_prose (a : Analysis)
    (pre mid post : List Char) (j : Json)
    (hpre : ∀ c ∈ pre, c ≠ '{') (hpost : ∀ c ∈ post, c ≠ '}')
    (hj : jsonParseWhole ('{' :: mid ++ ['}']) = some j) :
    getRecommendation (some (pre ++ ('{' :: mid ++ ['}']) ++ post)) a =
      .ok (.parsed j) := by
  have hspan := extractBraceSpan_decomp pre mid post hpre hpost
  simp only [List.append_assoc, List.cons_append, List.singleton_append,
    List.nil_append] at hspan hj ⊢
  simp [getRecommendation, hspan, hj]

/-- C2 (witness): the amended statement at a concrete response with prose on
both sides of the object. -/
theorem C2_extracts_json_witness :
    getRecommendation
        (some (examplePre ++ ('{' :: exampleObjMid ++ ['}']) ++ examplePostClean))
        exampleAnalysis =
      .ok (.parsed exampleParsedJson) :=
  C2_extracts_json_of_bracefree_prose exampleAnalysis examplePre exampleObjMid
    examplePostClean exampleParsedJson
    (of_decide_eq_true (by with_unfolding_all rfl))
    (of_decide_eq_true (by with_unfolding_all rfl))
    (by with_unfolding_all rfl)

/-! ## Claim C3 -/

/-- C3 (counterexample): the claim says every coordinate of a successful
fallback result lies within the requested bounding box, and out-of-bounds
entries are not accepted as-is.  On the code, a backend response placing its
site at latitude 99 — far outside `exampleBounds` — is parsed and returned
unchanged as a success: the out-of-bounds entry is accepted as-is. -/
theorem C3_counterexample :
    getRecommendation (some rawOutOfBounds) exampleAnalysis =
      .ok (.parsed outOfBoundsJson) ∧
    siteCoords (.parsed outOfBoundsJson) = [(99, 301/10)] ∧
    ¬ inBounds exampleAnalysis.bounds 99 (301/10) := by
  refine ⟨by with_unfolding_all rfl, by with_unfolding_all rfl, ?_⟩
  exact of_decide_eq_true (by with_unfolding_all rfl)

/-- C3 (amended): `getRecommendation` performs no bounds validation on a
parsed payload (see `C3_counterexample`); only the hard-coded fallback
payloads are guaranteed in-bounds — whenever the analysis carries a valid
box, every coordinate of both fallback site lists lies within it. -/
theorem C3_fallback_sites_in_bounds (a : Analysis)
    (hlat : a.bounds.minLat < a.bounds.maxLat)
    (hlon : a.bounds.minLon < a.bounds.maxLon) :
    (∀ c ∈ siteCoords (.fallbackCatch (dummySitesCatch a)),
      inBounds a.bounds c.1 c.2) ∧
    (∀ c ∈ siteCoords (.fallbackNoJson (dummySitesNoJson a)),
      inBounds a.bounds c.1 c.2) := by
  have key2 : ∀ f g : ℚ, 0 ≤ f → f ≤ 1 → 0 ≤ g → g ≤ 1 →
      inBounds a.bounds (a.bounds.minLat + (a.bounds.maxLat - a.bounds.minLat) * f)
        (a.bounds.minLon + (a.bounds.maxLon - a.bounds.minLon) * g) := by
    intro f g hf0 hf1 hg0 hg1
    refine ⟨by nlinarith, by nlinarith, by nlinarith, by nlinarith⟩
  constructor <;>
  · intro c hc
    simp only [siteCoords, dummySitesCatch, dummySitesNoJson, List.map_cons,
      List.map_nil, List.mem_cons, List.not_mem_nil, or_false] at hc
    rcases hc with rfl | rfl | rfl <;>
      exact key2 _ _ (by norm_num) (by norm_num) (by norm_num) (by norm_num)

/-- C3 (witness): the amended statement at a concrete analysis with a valid
bounding box. -/
theorem C3_fallback_sites_in_bounds_witness :
    (∀ c ∈ siteCoords (.fallbackCatch (dummySitesCatch exampleAnalysis)),
      inBounds exampleAnalysis.bounds c.1 c.2) ∧
    (∀ c ∈ siteCoords (.fallbackNoJson (dummySitesNoJson exampleAnalysis)),
      inBounds exampleAnalysis.bounds c.1 c.2) :=
  C3_fallback_sites_in_bounds exampleAnalysis
    (of_decide_eq_true (by with_unfolding_all rfl))
    (of_decide_eq_true (by with_unfolding_all rfl))

/-! ## Claim C4 -/

/-- C4 (counterexample): the claim says the generator fails with
`InvalidBounds` when `min ≥ max` on either axis and with `InvalidCount` when
`count ≤ 0`, and never returns a candidate sequence in those cases.  On the
code there is no validation at all: with degenerate bounds (`minLat = maxLat`
and `minLon > maxLon`) it still returns 25 candidates for `count = 20`, and
with `count = 0` it returns the empty list — in both cases a returned list,
never an error. -/
theorem C4_counterexample :
    (generateCandidateLocations degenerateBounds 20).length = 25 ∧
    generateCandidateLocations exampleBounds 0 = [] := by
  constructor
  · with_unfolding_all rfl
  · with_unfolding_all rfl

/-- C4 (amended): `generateCandidateLocations` performs no input validation
and cannot fail: for every bounds — valid or not — and count it returns
exactly `gridSize²` candidates, which for `count = 0` means the empty list. -/
theorem C4_no_validation (b : Bounds) (n : ℕ) :
    (generateCandidateLocations b n).length = gridSizeOf n * gridSizeOf n ∧
    (n = 0 → generateCandidateLocations b n = []) := by
  refine ⟨length_generateCandidateLocations b n, ?_⟩
  rintro rfl
  rfl

/-- C4 (witness): the amended statement at the degenerate bounds and at
count 0. -/
theorem C4_no_validation_witness :
    (generateCandidateLocations degenerateBounds 20).length =
      gridSizeOf 20 * gridSizeOf 20 ∧
    (0 = 0 → generateCandidateLocations exampleBounds 0 = []) :=
  ⟨(C4_no_validation degenerateBounds 20).1, (C4_no_validation exampleBounds 0).2⟩

/-! ## Claim C5 -/

/-- C5: for valid bounds (`min < max` on both axes) and `count ≥ 1`, the
candidate generator returns between `ceil(sqrt(count))` and
`ceil(sqrt(count))²` candidates (in fact exactly the square), and every
candidate lies strictly inside the box, never on its boundary. -/
theorem C5_generator_size_and_interior (b : Bounds) (n : ℕ)
    (hlat : b.minLat < b.maxLat) (hlon : b.minLon < b.maxLon) (hn : 1 ≤ n) :
    gridSizeOf n ≤ (generateCandidateLocations b n).length ∧
    (generateCandidateLocations b n).length ≤ gridSizeOf n * gridSizeOf n ∧
    ∀ c ∈ generateCandidateLocations b n,
      b.minLat < c.latitude ∧ c.latitude < b.maxLat ∧
      b.minLon < c.longitude ∧ c.longitude < b.maxLon := by
  refine ⟨?_, ?_, ?_⟩
  · rw [length_generateCandidateLocations]
    exact Nat.le_mul_of_pos_left _ (gridSizeOf_pos hn)
  · rw [length_generateCandidateLocations]
  · intro c hc
    exact generateCandidateLocations_strictly_inside hlat hlon hc

/-- C5 (witness): the statement at the example bounds with count 20
(`gridSize = 5`, 25 candidates). -/
theorem C5_generator_witness :
    gridSizeOf 20 ≤ (generateCandidateLocations exampleBounds 20).length ∧
    (generateCandidateLocations exampleBounds 20).length ≤
      gridSizeOf 20 * gridSizeOf 20 ∧
    ∀ c ∈ generateCandidateLocations exampleBounds 20,
      exampleBounds.minLat < c.latitude ∧ c.latitude < exampleBounds.maxLat ∧
      exampleBounds.minLon < c.longitude ∧ c.longitude < exampleBounds.maxLon :=
  C5_generator_size_and_interior exampleBounds 20
    (of_decide_eq_true (by with_unfolding_all rfl))
    (of_decide_eq_true (by with_unfolding_all rfl))
    (by norm_num)

/-! ## Claim C6 -/

/-- C6: any success of `selectTopLocations` on predictions produced by
`predictCandidateLocations` is sorted descending by probability, has at most
`numLocations` entries, and every entry has label 1 and probability strictly
above the 0.6 acceptance threshold — no entry at or below the threshold ever
appears. -/
theorem C6_selection_sorted_bounded_thresholded
    (svc : Candidate → Option PredData) (cands : List Candidate) (n : ℕ)
    (result : List Prediction)
    (hok : selectTopLocations (predictCandidateLocations svc cands) n =
      .ok result) :
    List.Sorted probGE result ∧ result.length ≤ n ∧
      ∀ p ∈ result, p.prediction = 1 ∧ 3 / 5 < p.probability := by
  unfold selectTopLocations at hok
  set S := (predictCandidateLocations svc cands).filter (fun p => p.suitable)
    with hS
  by_cases hemp : S.isEmpty
  · simp only [hemp, if_true] at hok
    exact absurd hok (by simp)
  · simp only [hemp, if_false] at hok
    have hres : result = (List.insertionSort probGE S).take n := by
      injection hok with h
      exact h.symm
    subst hres
    refine ⟨?_, ?_, ?_⟩
    · exact List.Pairwise.sublist (List.take_sublist _ _)
        (List.sorted_insertionSort probGE S)
    · simp [Nat.min_le_left]
    · intro p hp
      have hpS : p ∈ S := by
        have := List.mem_of_mem_take hp
        exact ((List.perm_insertionSort probGE S).mem_iff).mp this
      rw [hS] at hpS
      have hmem := (List.mem_filter.mp hpS).1
      have hsuit : p.suitable = true := (List.mem_filter.mp hpS).2
      obtain ⟨c, _, d, _, rfl⟩ := mem_predictCandidateLocations.mp hmem
      exact suitable_decode.mp hsuit

/-- C6 (witness): a high-probability prediction for a single candidate is
selected, and the theorem's guarantees hold for the resulting list. -/
theorem C6_selection_witness :
    List.Sorted probGE exampleTopResult ∧ exampleTopResult.length ≤ 3 ∧
      ∀ p ∈ exampleTopResult, p.prediction = 1 ∧ 3 / 5 < p.probability :=
  C6_selection_sorted_bounded_thresholded svcAlwaysGood [exampleCandidate] 3
    exampleTopResult (by with_unfolding_all rfl)

/-! ## Claim C7 -/

/-- C7: when no prediction of the batch has both label 1 and probability
above the acceptance threshold, `selectTopLocations` fails with the
no-suitable-locations error — it does not return an empty list as a
success. -/
theorem C7_no_suitable_candidates_error
    (svc : Candidate → Option PredData) (cands : List Candidate) (n : ℕ)
    (h : ∀ p ∈ predictCandidateLocations svc cands,
      ¬ (p.prediction = 1 ∧ 3 / 5 < p.probability)) :
    selectTopLocations (predictCandidateLocations svc cands) n =
      .error noSuitableMsg := by
  unfold selectTopLocations
  have hfil : (predictCandidateLocations svc cands).filter
      (fun p => p.suitable) = [] := by
    rw [List.filter_eq_nil_iff]
    intro p hp
    obtain ⟨c, _, d, _, rfl⟩ := mem_predictCandidateLocations.mp hp
    intro hsuit
    exact h _ hp (suitable_decode.mp hsuit)
  rw [hfil]
  rfl

/-- C7 (witness): a batch whose single prediction has probability 0.5 — at
label 1 but below the threshold — is rejected with the error. -/
theorem C7_no_suitable_witness :
    selectTopLocations (predictCandidateLocations svcAlwaysLow [exampleCandidate]) 3 =
      .error noSuitableMsg :=
  C7_no_suitable_candidates_error svcAlwaysLow [exampleCandidate] 3 (by
    intro p hp
    rw [show predictCandidateLocations svcAlwaysLow [exampleCandidate] =
      [mkPrediction exampleCandidate exampleLowPredData] from rfl] at hp
    simp only [List.mem_singleton] at hp
    subst hp
    intro hcontra
    exact absurd hcontra.2 (by
      have : ¬ ((3 : ℚ) / 5 < 1 / 2) := of_decide_eq_true (by with_unfolding_all rfl)
      simpa [mkPrediction, exampleLowPredData] using this))

/-! ## Claim C8 -/

/-- C8: a per-candidate service failure only skips that candidate: every
candidate whose call succeeds contributes its prediction to the batch, the
batch size equals the number of successful candidates (so the batch never
aborts), and the pathway-level no-predictions error of `getMLRecommendation`
occurs exactly when every candidate's call failed. -/
theorem C8_per_candidate_failures_skipped
    (svc : Candidate → Option PredData) (cands : List Candidate) (a : Analysis) :
    (∀ c ∈ cands, ∀ d, svc c = some d →
      mkPrediction c d ∈ predictCandidateLocations svc cands) ∧
    (predictCandidateLocations svc cands).length =
      (cands.filter (fun c => (svc c).isSome)).length ∧
    (getMLRecommendation (.ok ()) svc a = .error noPredictionsMsg ↔
      ∀ c ∈ generateCandidateLocations a.bounds 20, svc c = none) := by
  refine ⟨?_, ?_, ?_⟩
  · intro c hc d hd
    exact mem_predictCandidateLocations.mpr ⟨c, hc, d, hd, rfl⟩
  · induction cands with
    | nil => rfl
    | cons c t ih =>
      cases hsvc : svc c <;>
        simp [predictCandidateLocations, List.filterMap_cons, List.filter_cons,
          hsvc, Option.isSome] at ih ⊢ <;>
        exact ih
  · have hpred : (predictCandidateLocations svc
        (generateCandidateLocations a.bounds 20)).isEmpty = true ↔
        ∀ c ∈ generateCandidateLocations a.bounds 20, svc c = none := by
      rw [List.isEmpty_iff, predictCandidateLocations, List.filterMap_eq_nil_iff]
      constructor
      · intro h c hc
        have := h c hc
        cases hsvc : svc c
        · rfl
        · rw [hsvc] at this
          simp at this
      · intro h c hc
        rw [h c hc]
        rfl
    constructor
    · intro herr
      rw [← hpred]
      unfold getMLRecommendation at herr
      by_cases hemp : (predictCandidateLocations svc
          (generateCandidateLocations a.bounds 20)).isEmpty
      · exact hemp
      · exfalso
        simp only [hemp, if_false] at herr
        rcases hsel : selectTopLocations (predictCandidateLocations svc
            (generateCandidateLocations a.bounds 20)) 3 with e | top
        · rw [hsel] at herr
          have hmsg : e = noSuitableMsg := by
            simp only [selectTopLocations] at hsel
            by_cases hf : ((predictCandidateLocations svc
                (generateCandidateLocations a.bounds 20)).filter
                  (fun p => p.suitable)).isEmpty = true
            · rw [if_pos hf] at hsel
              injection hsel with h
              exact h.symm
            · rw [if_neg hf] at hsel
              exact Except.noConfusion hsel
          injection herr with h
          rw [hmsg] at h
          exact absurd h.symm (of_decide_eq_true (by with_unfolding_all rfl))
        · rw [hsel] at herr
          exact Except.noConfusion herr
    · intro hall
      unfold getMLRecommendation
      rw [if_pos (hpred.mpr hall)]

/-- C8 (witness): with a service failing exactly on one of two candidates,
the surviving candidate's prediction is in the batch and the batch length is
the success count; with a service failing on every candidate, the pathway
error occurs. -/
theorem C8_per_candidate_witness :
    mkPrediction exampleCandidate examplePredData ∈
      predictCandidateLocations svcMixed [secondCandidate, exampleCandidate] ∧
    (predictCandidateLocations svcMixed [secondCandidate, exampleCandidate]).length =
      ([secondCandidate, exampleCandidate].filter
        (fun c => (svcMixed c).isSome)).length ∧
    getMLRecommendation (.ok ()) svcAlwaysFail exampleAnalysis =
      .error noPredictionsMsg :=
  ⟨(C8_per_candidate_failures_skipped svcMixed [secondCandidate, exampleCandidate]
      exampleAnalysis).1 exampleCandidate (by simp) examplePredData
      (by with_unfolding_all rfl),
   (C8_per_candidate_failures_skipped svcMixed [secondCandidate, exampleCandidate]
      exampleAnalysis).2.1,
   (C8_per_candidate_failures_skipped svcAlwaysFail [] exampleAnalysis).2.2.mpr
      (fun c _ => rfl)⟩

/-! ## Claim C9 -/

/-- C9: with the ML pathway enabled (both flags on) and a valid request
body, when `getMLRecommendation` rejects and `getRecommendation` also
rejects, the route answers a single 503 error carrying both failure
messages, stores nothing, and does not answer success. -/
theorem C9_both_pathways_fail_combined_error (body : RequestAnalysis)
    (mlErr llmErr : String) (hid : districtIdOk body.districtId = true) :
    handleRecommend true true (some body) (.error mlErr) (.error llmErr) =
      { response := .serviceUnavailable mlErr llmErr
        invokedML := true, invokedLLM := true, storedRecommendation := false } := by
  simp [handleRecommend, hid]

/-- C9 (witness): the statement at a request with a valid district UUID and
the spec's scenario-D failure pair. -/
theorem C9_both_pathways_fail_witness :
    handleRecommend true true (some exampleRequest)
        (.error "ML model not loaded. Please train and export a model first.")
        (.error "Ollama API error: Service Unavailable") =
      { response := .serviceUnavailable
          "ML model not loaded. Please train and export a model first."
          "Ollama API error: Service Unavailable"
        invokedML := true, invokedLLM := true, storedRecommendation := false } :=
  C9_both_pathways_fail_combined_error exampleRequest _ _
    (by with_unfolding_all rfl)

/-! ## Claim C10 -/

/-- C10: a request whose body lacks an `analysis` object, or whose
`districtId` is absent, empty, or not a UUID, is answered 400 immediately,
with neither pathway invoked and nothing written to the recommendations
store. -/
theorem C10_invalid_request_rejected_without_side_effects
    (mlEnabled useML : Bool) (body : Option RequestAnalysis)
    (ml : Except String MLRec) (llm : Except String RecOutput)
    (h : body = none ∨
      ∃ ra, body = some ra ∧ districtIdOk ra.districtId = false) :
    ((handleRecommend mlEnabled useML body ml llm).response =
        .badRequest "Analysis data required" ∨
      (handleRecommend mlEnabled useML body ml llm).response =
        .badRequest "Invalid district ID") ∧
    (handleRecommend mlEnabled useML body ml llm).invokedML = false ∧
    (handleRecommend mlEnabled useML body ml llm).invokedLLM = false ∧
    (handleRecommend mlEnabled useML body ml llm).storedRecommendation = false := by
  rcases h with rfl | ⟨ra, rfl, hra⟩
  · exact ⟨Or.inl rfl, rfl, rfl, rfl⟩
  · simp [handleRecommend, hra]

/-- C10 (witness): the statement at a request whose district id is not a
UUID. -/
theorem C10_invalid_request_witness :
    ((handleRecommend true true (some malformedRequest)
        (.error "ml down") (.error "llm down")).response =
        .badRequest "Analysis data required" ∨
      (handleRecommend true true (some malformedRequest)
        (.error "ml down") (.error "llm down")).response =
        .badRequest "Invalid district ID") ∧
    (handleRecommend true true (some malformedRequest)
      (.error "ml down") (.error "llm down")).invokedML = false ∧
    (handleRecommend true true (some malformedRequest)
      (.error "ml down") (.error "llm down")).invokedLLM = false ∧
    (handleRecommend true true (some malformedRequest)
      (.error "ml down") (.error "llm down")).storedRecommendation = false :=
  C10_invalid_request_rejected_without_side_effects true true
    (some malformedRequest) (.error "ml down") (.error "llm down")
    (Or.inr ⟨malformedRequest, rfl, by with_unfolding_all rfl⟩)

end HFP
